import Mathlib

/-!
# Energy usage/cost projection engine: a shallow embedding

This file embeds the core logic of the energy-usage-predictor React
application in Lean 4 and proves the specified properties about it.

Numbers are modelled as rationals (`ℚ`); JavaScript strings are modelled
as `List Char`.  The embedded functions mirror, statement by statement:

* `isWinterMonth`, `calculateTariffBands` — the seasonal tariff-band
  deriver;
* `jsNumber`, `parseUsageBasis` — the `split(",").map(Number).filter(!isNaN)`
  input pipeline (for `jsNumber` we model the decimal fragment of the
  JavaScript `Number` conversion: surrounding whitespace is stripped, an
  empty string converts to `0`, an optional sign followed by decimal
  digits with an optional fractional part converts to the denoted value,
  and anything else is NaN, encoded as `none`);
* `jsDaysInMonth` — the `new Date(2025, i + 1, 0).getDate()` day-count,
  including the calendar normalisation JavaScript applies to month
  indices past December;
* `calculateProjection` — the projection engine (`none` models the path
  where the surrounding `try`/`catch` caught an exception, which happens
  only when the tariff-quarter list is too short in variable mode);
* `loadBand`, `loadTariffQuarters`, `loadPeakPercentage` — the
  missing-field defaulting performed by `handleLoadSession`.
-/

/-- Rounding to two decimals: models `Math.round(x * 100) / 100` (and
`parseFloat(x.toFixed(2))`, which agrees with it on the non-negative
values arising here).  `Math.round(y)` is `⌊y + 1/2⌋` (half toward +∞). -/
def round2 (x : ℚ) : ℚ := (⌊x * 100 + 1 / 2⌋ : ℚ) / 100

/-- Rate triple without a name: the shape of `fixedRates` and of
`currentTariffBand` in the source. -/
structure Rates where
  peakUnitRate : ℚ
  offPeakUnitRate : ℚ
  standingCharge : ℚ
deriving Repr, DecidableEq

/-- A named tariff band, as produced by `calculateTariffBands`. -/
structure TariffBand where
  name : String
  peakUnitRate : ℚ
  standingCharge : ℚ
  offPeakUnitRate : ℚ
deriving Repr, DecidableEq, Inhabited

/-- Forget the name of a band, keeping its three rates. -/
def TariffBand.rates (t : TariffBand) : Rates :=
  { peakUnitRate := t.peakUnitRate
    offPeakUnitRate := t.offPeakUnitRate
    standingCharge := t.standingCharge }

/-- `isWinterMonth` from the source: `month >= 10 || month <= 3`. -/
def isWinterMonth (month : ℤ) : Bool :=
  decide (month ≥ 10) || decide (month ≤ 3)

/-- `baseIncrease` from the source: 0.5p per quarter for every field. -/
def baseIncrease : ℚ := 1 / 2

/-- Winter seasonal multiplier from the source: `1.1`. -/
def seasonalMultiplierWinter : ℚ := 11 / 10

/-- Summer seasonal multiplier from the source: `0.95`. -/
def seasonalMultiplierSummer : ℚ := 19 / 20

/-- The body of the `for (let i = 1; i <= 2; i++)` loop of
`calculateTariffBands`: the future band at quarter offset `i`.
JavaScript `%` is the truncating remainder, `Int.tmod`. -/
def futureBandOf (currentTariffBand : Rates) (currentMonth : ℤ) (i : ℕ) : TariffBand :=
  let futureMonth := Int.tmod (currentMonth - 1 + i * 3) 12 + 1
  let isWinter := isWinterMonth futureMonth
  let multiplier := if isWinter then seasonalMultiplierWinter else seasonalMultiplierSummer
  { name := if i = 1 then "Next Quarter" else "Following Quarter"
    peakUnitRate := round2 ((currentTariffBand.peakUnitRate + baseIncrease * i) * multiplier)
    standingCharge := round2 ((currentTariffBand.standingCharge + baseIncrease * i) * multiplier)
    offPeakUnitRate := round2 ((currentTariffBand.offPeakUnitRate + baseIncrease * i) * multiplier) }

/-- `calculateTariffBands` from the source: the current band labelled
"Current Month" followed by the two seasonally adjusted future bands. -/
def calculateTariffBands (currentTariffBand : Rates) (currentMonth : ℤ) : List TariffBand :=
  [ { name := "Current Month"
      peakUnitRate := currentTariffBand.peakUnitRate
      standingCharge := currentTariffBand.standingCharge
      offPeakUnitRate := currentTariffBand.offPeakUnitRate }
  , futureBandOf currentTariffBand currentMonth 1
  , futureBandOf currentTariffBand currentMonth 2 ]

/-- The whitespace characters stripped by JavaScript `Number` conversion
(the ASCII ones; the input fields produce no exotic Unicode spaces). -/
def jsWhitespace (c : Char) : Bool :=
  c = ' ' || c = '\t' || c = '\n' || c = '\r' || c = '\x0b' || c = '\x0c'

/-- Split a character list at every occurrence of `sep`, keeping empty
groups: models JavaScript `String.prototype.split` with a one-character
separator (so the empty string splits to one empty group). -/
def splitOnChar (sep : Char) : List Char → List (List Char)
  | [] => [[]]
  | c :: rest =>
    match splitOnChar sep rest with
    | [] => if c = sep then [[], []] else [[c]]
    | g :: gs => if c = sep then [] :: g :: gs else (c :: g) :: gs

/-- Strip leading and trailing JavaScript whitespace. -/
def jsTrim (cs : List Char) : List Char :=
  ((cs.dropWhile jsWhitespace).reverse.dropWhile jsWhitespace).reverse

/-- Numeric value of a digit string (most significant digit first). -/
def digitsVal (cs : List Char) : ℕ :=
  cs.foldl (fun a c => 10 * a + (c.toNat - 48)) 0

/-- Parse an unsigned decimal numeral: `digits`, `digits.digits`,
`digits.` or `.digits`.  `none` models NaN. -/
def parseUnsignedDec (cs : List Char) : Option ℚ :=
  match splitOnChar '.' cs with
  | [ip] =>
    if ip ≠ [] ∧ ip.all Char.isDigit then some (digitsVal ip) else none
  | [ip, fp] =>
    if (ip ≠ [] ∨ fp ≠ []) ∧ ip.all Char.isDigit ∧ fp.all Char.isDigit then
      some ((digitsVal ip : ℚ) + (digitsVal fp : ℚ) / (10 : ℚ) ^ fp.length)
    else none
  | _ => none

/-- The decimal fragment of JavaScript `Number(string)`: trim whitespace,
an empty remainder is `0`, otherwise an optional sign and an unsigned
decimal numeral; `none` models NaN. -/
def jsNumber (cs : List Char) : Option ℚ :=
  let t := jsTrim cs
  match t with
  | [] => some 0
  | '+' :: rest => parseUnsignedDec rest
  | '-' :: rest => Option.map Neg.neg (parseUnsignedDec rest)
  | _ => parseUnsignedDec t

/-- The input pipeline of `calculateProjection`:
`monthlyUsageProjectionBasis.split(",").map(Number).filter((n) => !isNaN(n))`. -/
def parseUsageBasis (s : List Char) : List ℚ :=
  ((splitOnChar ',' s).map jsNumber).filterMap id

/-- Whether year `y` is a Gregorian leap year. -/
def isLeapYear (y : ℕ) : Bool :=
  (decide (y % 4 = 0) && decide (y % 100 ≠ 0)) || decide (y % 400 = 0)

/-- Day count of calendar month `m` (1–12) of year `y`. -/
def gregorianDaysInMonth (y m : ℕ) : ℕ :=
  if m = 2 then (if isLeapYear y then 29 else 28)
  else if m = 4 ∨ m = 6 ∨ m = 9 ∨ m = 11 then 30
  else 31

/-- `new Date(2025, i + 1, 0).getDate()` from the source: day 0 of month
index `i + 1` of 2025 is the last day of absolute month `2025 * 12 + i`,
after the calendar normalisation JavaScript applies to month arguments
past December (which rolls into 2026, 2027, … as `i` grows). -/
def jsDaysInMonth (i : ℕ) : ℕ :=
  gregorianDaysInMonth ((2025 * 12 + i) / 12) ((2025 * 12 + i) % 12 + 1)

/-- The projection engine's configuration: the reactive inputs read by
`calculateProjection`. -/
structure ProjectionConfig where
  monthlyUsageProjectionBasis : List Char
  peakPercentage : ℚ
  nMonths : ℕ
  tariffQuarters : List TariffBand
  isFixedCharge : Bool
  fixedRates : Rates
deriving Repr

/-- The state written back by `calculateProjection`. -/
structure ProjectionResult where
  error : Option String
  projectedUsage : List ℚ
  projectedCosts : List ℚ
  totalProjectedCost : ℚ
deriving Repr, DecidableEq

/-- The error message set when the usage basis filters to nothing. -/
def invalidInputMsg : String := "Monthly Usage Projection Basis cannot be empty."

/-- `peakUsage = totalUsage * (peakPercentage / 100)` from the source. -/
def peakUsageOf (peakPercentage totalUsage : ℚ) : ℚ :=
  totalUsage * (peakPercentage / 100)

/-- `offPeakUsage = totalUsage * (offPeakPercentage / 100)` with
`offPeakPercentage = 100 - peakPercentage`, as in the source. -/
def offPeakUsageOf (peakPercentage totalUsage : ℚ) : ℚ :=
  totalUsage * ((100 - peakPercentage) / 100)

/-- Tariff-band selection from the source: default `tariffQuarters[2]`,
overridden to `[0]` for `i < 3`, `[1]` for `i < 6`, `[2]` for `i < 9`.
`none` models the `undefined` JavaScript yields when the list is too
short (dereferencing it then throws). -/
def applicableTariff (tariffQuarters : List TariffBand) (i : ℕ) : Option TariffBand :=
  if i < 3 then tariffQuarters[0]?
  else if i < 6 then tariffQuarters[1]?
  else if i < 9 then tariffQuarters[2]?
  else tariffQuarters[2]?

/-- `monthCost` for given rates: unit cost of the peak and off-peak
energy plus the standing charge for the month, pence converted to
pounds by the `/ 100`s, exactly as in the source. -/
def monthCostWith (r : Rates) (peakUsage offPeakUsage daysInMonth : ℚ) : ℚ :=
  let totalUnitCost := peakUsage * r.peakUnitRate / 100 + offPeakUsage * r.offPeakUnitRate / 100
  let totalStandingChargeCost := daysInMonth * r.standingCharge / 100
  totalUnitCost + totalStandingChargeCost

/-- One month's cost in `calculateProjection`: fixed mode uses
`fixedRates`, variable mode dereferences the applicable tariff band
(`none` = the dereference would throw). -/
def monthCost (cfg : ProjectionConfig) (i : ℕ) (totalUsage : ℚ) : Option ℚ :=
  let peakUsage := peakUsageOf cfg.peakPercentage totalUsage
  let offPeakUsage := offPeakUsageOf cfg.peakPercentage totalUsage
  let daysInMonth : ℚ := jsDaysInMonth i
  if cfg.isFixedCharge then
    some (monthCostWith cfg.fixedRates peakUsage offPeakUsage daysInMonth)
  else
    Option.map (fun t => monthCostWith t.rates peakUsage offPeakUsage daysInMonth)
      (applicableTariff cfg.tariffQuarters i)

/-- The `for (let i = 0; i < nMonths; i++)` loop of `calculateProjection`:
accumulates `projectedMonths`, `projectedCostsCalc` (2-decimal rounded)
and the full-precision running total; `none` propagates a thrown
exception. -/
def projLoop (cfg : ProjectionConfig) (usageBasis : List ℚ) : ℕ → Option (List ℚ × List ℚ × ℚ)
  | 0 => some ([], [], 0)
  | n + 1 =>
    match projLoop cfg usageBasis n with
    | none => none
    | some (us, cs, total) =>
      let totalUsage := usageBasis.getD (n % usageBasis.length) 0
      match monthCost cfg n totalUsage with
      | none => none
      | some mc => some (us ++ [totalUsage], cs ++ [round2 mc], total + mc)

/-- `calculateProjection` from the source.  `none` models the `catch`
branch (an exception was thrown and the previous state is retained);
otherwise the returned `ProjectionResult` is the state written back. -/
def calculateProjection (cfg : ProjectionConfig) : Option ProjectionResult :=
  let usageBasis := parseUsageBasis cfg.monthlyUsageProjectionBasis
  if usageBasis.length = 0 then
    some { error := some invalidInputMsg
           projectedUsage := []
           projectedCosts := []
           totalProjectedCost := 0 }
  else
    match projLoop cfg usageBasis cfg.nMonths with
    | some (us, cs, total) =>
      some { error := none
             projectedUsage := us
             projectedCosts := cs
             totalProjectedCost := total }
    | none => none

/-- A stored tariff band as read back from local storage: the
`standingCharge` field may be absent (`none`). -/
structure StoredBand where
  name : String
  peakUnitRate : ℚ
  offPeakUnitRate : ℚ
  standingCharge : Option ℚ
deriving Repr, DecidableEq

/-- The per-band defaulting in `handleLoadSession`:
`{ ...q, standingCharge: q.standingCharge !== undefined ? q.standingCharge : 0 }`. -/
def loadBand (q : StoredBand) : TariffBand :=
  { name := q.name
    peakUnitRate := q.peakUnitRate
    standingCharge := match q.standingCharge with | some v => v | none => 0
    offPeakUnitRate := q.offPeakUnitRate }

/-- `session.tariffQuarters.map(...)` in `handleLoadSession`. -/
def loadTariffQuarters (qs : List StoredBand) : List TariffBand :=
  qs.map loadBand

/-- `session.peakPercentage || 70` in `handleLoadSession`: an absent
field defaults to 70; among numbers, `0` is the falsy value (`ℚ` has no
NaN), so a stored `0` also yields 70. -/
def loadPeakPercentage (p : Option ℚ) : ℚ :=
  match p with
  | none => 70
  | some v => if v = 0 then 70 else v

/-! ## Helper forms of the engine's per-month quantities -/

/-- The usage applied to month `i`: `usageBasis[i % usageBasis.length]`. -/
def usageAt (ub : List ℚ) (i : ℕ) : ℚ := ub.getD (i % ub.length) 0

/-- The rates applied to month `i`: `fixedRates` in fixed mode, the
selected tariff band otherwise. -/
def appliedRates (cfg : ProjectionConfig) (i : ℕ) : Rates :=
  if cfg.isFixedCharge then cfg.fixedRates
  else ((applicableTariff cfg.tariffQuarters i).getD default).rates

/-- The (unrounded) cost of month `i` for a given parsed usage basis. -/
def costAt (cfg : ProjectionConfig) (ub : List ℚ) (i : ℕ) : ℚ :=
  monthCostWith (appliedRates cfg i) (peakUsageOf cfg.peakPercentage (usageAt ub i))
    (offPeakUsageOf cfg.peakPercentage (usageAt ub i)) (jsDaysInMonth i)

/-! ## Basic lemmas about the engine -/

lemma abs_round2_sub_le (x : ℚ) : |round2 x - x| ≤ 1 / 200 := by
  unfold round2
  have h1 : (⌊x * 100 + 1 / 2⌋ : ℚ) ≤ x * 100 + 1 / 2 := Int.floor_le _
  have h2 : x * 100 + 1 / 2 < ⌊x * 100 + 1 / 2⌋ + 1 := Int.lt_floor_add_one _
  rw [abs_le]
  constructor <;> linarith

lemma abs_sum_round2_sub {α : Type*} (f : α → ℚ) (l : List α) :
    |(l.map f).sum - (l.map (fun a => round2 (f a))).sum| ≤ (l.length : ℚ) * (1 / 200) := by
  induction l with
  | nil => simp
  | cons a t ih =>
    simp only [List.map_cons, List.sum_cons, List.length_cons]
    have h1 : |f a - round2 (f a)| ≤ 1 / 200 := by
      rw [abs_sub_comm]
      exact abs_round2_sub_le (f a)
    have step : |f a + (t.map f).sum - (round2 (f a) + (t.map (fun a => round2 (f a))).sum)| ≤
        |f a - round2 (f a)| + |(t.map f).sum - (t.map (fun a => round2 (f a))).sum| := by
      have habs := abs_add (f a - round2 (f a))
        ((t.map f).sum - (t.map (fun a => round2 (f a))).sum)
      have harr : f a + (t.map f).sum - (round2 (f a) + (t.map (fun a => round2 (f a))).sum) =
          (f a - round2 (f a)) + ((t.map f).sum - (t.map (fun a => round2 (f a))).sum) := by ring
      rw [harr]
      exact habs
    calc |f a + (t.map f).sum - (round2 (f a) + (t.map (fun a => round2 (f a))).sum)|
        ≤ 1 / 200 + (t.length : ℚ) * (1 / 200) := step.trans (add_le_add h1 ih)
      _ = ((t.length : ℚ) + 1) * (1 / 200) := by ring
      _ = ((t.length + 1 : ℕ) : ℚ) * (1 / 200) := by push_cast; ring

lemma round2_eq_of (x : ℚ) (z : ℤ) (h1 : (z : ℚ) ≤ x * 100 + 1 / 2)
    (h2 : x * 100 + 1 / 2 < z + 1) : round2 x = (z : ℚ) / 100 := by
  unfold round2
  rw [Int.floor_eq_iff.mpr ⟨h1, h2⟩]

lemma applicableTariff_three (b0 b1 b2 : TariffBand) (i : ℕ) :
    applicableTariff [b0, b1, b2] i = some (if i < 3 then b0 else if i < 6 then b1 else b2) := by
  unfold applicableTariff
  split_ifs <;> rfl

lemma monthCost_three (cfg : ProjectionConfig) (h3 : cfg.tariffQuarters.length = 3)
    (i : ℕ) (u : ℚ) :
    monthCost cfg i u = some (monthCostWith (appliedRates cfg i)
      (peakUsageOf cfg.peakPercentage u) (offPeakUsageOf cfg.peakPercentage u)
      (jsDaysInMonth i)) := by
  obtain ⟨b0, b1, b2, htq⟩ := List.length_eq_three.mp h3
  unfold monthCost appliedRates
  by_cases hf : cfg.isFixedCharge
  · simp [hf]
  · simp [hf, htq, applicableTariff_three]

lemma projLoop_three (cfg : ProjectionConfig) (h3 : cfg.tariffQuarters.length = 3)
    (ub : List ℚ) (n : ℕ) :
    projLoop cfg ub n =
      some ((List.range n).map (usageAt ub),
            (List.range n).map (fun i => round2 (costAt cfg ub i)),
            ((List.range n).map (costAt cfg ub)).sum) := by
  induction n with
  | zero => rfl
  | succ n ih =>
    rw [projLoop, ih]
    simp [monthCost_three cfg h3, List.range_succ, costAt, usageAt]

lemma calculateProjection_ok (cfg : ProjectionConfig) (h3 : cfg.tariffQuarters.length = 3)
    (hub : parseUsageBasis cfg.monthlyUsageProjectionBasis ≠ []) :
    calculateProjection cfg = some
      { error := none
        projectedUsage :=
          (List.range cfg.nMonths).map (usageAt (parseUsageBasis cfg.monthlyUsageProjectionBasis))
        projectedCosts := (List.range cfg.nMonths).map
          (fun i => round2 (costAt cfg (parseUsageBasis cfg.monthlyUsageProjectionBasis) i))
        totalProjectedCost := ((List.range cfg.nMonths).map
          (costAt cfg (parseUsageBasis cfg.monthlyUsageProjectionBasis))).sum } := by
  unfold calculateProjection
  rw [if_neg (by simpa using hub), projLoop_three cfg h3]

lemma calculateProjection_emptyBasis (cfg : ProjectionConfig)
    (hub : parseUsageBasis cfg.monthlyUsageProjectionBasis = []) :
    calculateProjection cfg = some
      { error := some invalidInputMsg
        projectedUsage := []
        projectedCosts := []
        totalProjectedCost := 0 } := by
  unfold calculateProjection
  rw [if_pos (by simp [hub])]

/-- If no character of `cs` is the separator, splitting leaves one group. -/
lemma splitOnChar_eq_single (sep : Char) (cs : List Char) (h : ∀ c ∈ cs, ¬ c = sep) :
    splitOnChar sep cs = [cs] := by
  induction cs with
  | nil => rfl
  | cons c rest ih =>
    have hrest := ih (fun x hx => h x (List.mem_cons_of_mem c hx))
    have hc := h c (List.mem_cons_self c rest)
    simp [splitOnChar, hrest, hc]

/-- Indexing a mapped range. -/
lemma getElem?_map_range {α : Type*} (f : ℕ → α) {n i : ℕ} (h : i < n) :
    ((List.range n).map f)[i]? = some (f i) := by
  simp [List.getElem?_map, List.getElem?_range, h]

/-- The initial `tariffQuarters` state of the application. -/
def defaultTariffQuarters : List TariffBand :=
  [ { name := "Current Month", peakUnitRate := 27, standingCharge := 55, offPeakUnitRate := 15 }
  , { name := "Next Quarter", peakUnitRate := 27.5, standingCharge := 55.5, offPeakUnitRate := 15.5 }
  , { name := "Following Quarter", peakUnitRate := 28, standingCharge := 56, offPeakUnitRate := 16 } ]

/-- The specification's fixed-mode worked example: `usagePattern=[100]`,
`peakPercentage=50`, `monthCount=2`, `peakUnitRate=20`, `offPeakUnitRate=10`,
`standingCharge=50`. -/
def exampleFixedCfg : ProjectionConfig :=
  { monthlyUsageProjectionBasis := ['1', '0', '0']
    peakPercentage := 50
    nMonths := 2
    tariffQuarters := defaultTariffQuarters
    isFixedCharge := true
    fixedRates := { peakUnitRate := 20, offPeakUnitRate := 10, standingCharge := 50 } }

/-- A variable-mode configuration with the pattern `"10,20"`, used to
witness the satisfiability of the general theorems. -/
def witnessCfg : ProjectionConfig :=
  { monthlyUsageProjectionBasis := ['1', '0', ',', '2', '0']
    peakPercentage := 70
    nMonths := 5
    tariffQuarters := defaultTariffQuarters
    isFixedCharge := false
    fixedRates := { peakUnitRate := 25, offPeakUnitRate := 12, standingCharge := 50 } }

/-- A configuration whose usage-pattern input is the empty string. -/
def blankCfg : ProjectionConfig :=
  { monthlyUsageProjectionBasis := []
    peakPercentage := 70
    nMonths := 12
    tariffQuarters := defaultTariffQuarters
    isFixedCharge := false
    fixedRates := { peakUnitRate := 25, offPeakUnitRate := 12, standingCharge := 50 } }

/-- An unparseable usage-pattern input. -/
def unparseableCfg : ProjectionConfig :=
  { monthlyUsageProjectionBasis := ['x', ',', 'a', 'b']
    peakPercentage := 70
    nMonths := 12
    tariffQuarters := defaultTariffQuarters
    isFixedCharge := false
    fixedRates := { peakUnitRate := 25, offPeakUnitRate := 12, standingCharge := 50 } }

/-! ## The claims -/

/-- Claim C4: in variable mode the band applied to month `i` is
`derivedBands[0]` for `0 ≤ i ≤ 2`, `derivedBands[1]` for `3 ≤ i ≤ 5`,
`derivedBands[2]` for `6 ≤ i ≤ 8`, and `derivedBands[2]` (the last band,
reused indefinitely) for every `i ≥ 9`. -/
theorem C4_band_selection (b0 b1 b2 : TariffBand) (i : ℕ) :
    applicableTariff [b0, b1, b2] i =
      some (if i ≤ 2 then b0 else if i ≤ 5 then b1 else b2) := by
  unfold applicableTariff
  split_ifs <;> first | rfl | (exfalso; omega)

/-- Claim C5, counterexample: there is no fixed non-leap reference year
whose Jan–Dec day counts, cycled with period 12, reproduce the day counts
the code uses for every month index: at index 37 the code reads the
length of February 2028 — a leap year — and gets 29, while any non-leap
reference year would give 28 at position `37 % 12 + 1 = 2`. -/
theorem C5_days_counterexample :
    ¬ ∃ y : ℕ, isLeapYear y = false ∧
        ∀ i : ℕ, jsDaysInMonth i = gregorianDaysInMonth y (i % 12 + 1) := by
  rintro ⟨y, hy, h⟩
  have h37 := h 37
  have hd : jsDaysInMonth 37 = 29 := by decide
  have hm : (37 : ℕ) % 12 + 1 = 2 := by decide
  rw [hd, hm] at h37
  simp [gregorianDaysInMonth, hy] at h37

/-- Claim C5, amended: the day count used for month index `i` is that of
the real Gregorian calendar month `i` months after January 2025 (it never
depends on the configured `currentMonth`).  For every `i < 37` this
coincides with the day count of month `(i % 12) + 1` in the non-leap
reference year 2025 — so "February" positions use 28 days — but at
`i = 37` the code reaches February 2028, a leap year, and uses 29 days. -/
theorem C5_days_amended :
    (∀ i : ℕ, i < 37 → jsDaysInMonth i = gregorianDaysInMonth 2025 (i % 12 + 1))
    ∧ jsDaysInMonth 37 = 29 ∧ isLeapYear 2028 = true ∧ isLeapYear 2025 = false := by
  refine ⟨by decide, by decide, by decide, by decide⟩

/-- Witness for the amended C5 at the concrete index 1 (a "February"
position below 37, which does use 28 days). -/
theorem C5_days_amended_witness :
    jsDaysInMonth 1 = gregorianDaysInMonth 2025 (1 % 12 + 1) :=
  C5_days_amended.1 1 (by decide)

/-- Claim C8: for the per-month split used by the engine,
`peakUsage + offPeakUsage = totalUsage` holds exactly over the
rationals, and the derived (never stored) off-peak percentage
`100 - peakPercentage` sums with `peakPercentage` to 100. -/
theorem C8_peak_offpeak_split :
    ∀ (peakPercentage totalUsage : ℚ),
      peakUsageOf peakPercentage totalUsage + offPeakUsageOf peakPercentage totalUsage
          = totalUsage
        ∧ peakPercentage + (100 - peakPercentage) = 100 := by
  intro p u
  constructor
  · unfold peakUsageOf offPeakUsageOf; ring
  · ring

/-- Claim C9: loading a stored session defaults missing fields instead
of failing: a loaded band without a `standingCharge` gets 0 and keeps
its other fields; a band with a stored `standingCharge` keeps it; a
session without a `peakPercentage` gets 70. -/
theorem C9_load_session_defaults :
    (∀ (name : String) (pk op : ℚ),
      loadBand { name := name, peakUnitRate := pk, offPeakUnitRate := op, standingCharge := none }
        = { name := name, peakUnitRate := pk, standingCharge := 0, offPeakUnitRate := op })
    ∧ (∀ (name : String) (pk op v : ℚ),
      loadBand { name := name, peakUnitRate := pk, offPeakUnitRate := op,
                 standingCharge := some v }
        = { name := name, peakUnitRate := pk, standingCharge := v, offPeakUnitRate := op })
    ∧ loadPeakPercentage none = 70
    ∧ (∀ qs : List StoredBand, loadTariffQuarters qs = qs.map loadBand) :=
  ⟨fun _ _ _ => rfl, fun _ _ _ _ => rfl, rfl, fun _ => rfl⟩

/-- Claim C2: for every non-empty parseable usage pattern and positive
month count `N`, the projection succeeds with usage and cost sequences of
length exactly `N`, and `monthlyUsage[i] = usagePattern[i % len]` for
every `i < N`. -/
theorem C2_lengths_and_cyclic_usage (cfg : ProjectionConfig)
    (h3 : cfg.tariffQuarters.length = 3)
    (hub : parseUsageBasis cfg.monthlyUsageProjectionBasis ≠ [])
    (_hpos : 0 < cfg.nMonths) :
    ∃ r : ProjectionResult, calculateProjection cfg = some r ∧ r.error = none ∧
      r.projectedUsage.length = cfg.nMonths ∧ r.projectedCosts.length = cfg.nMonths ∧
      ∀ i : ℕ, i < cfg.nMonths →
        r.projectedUsage[i]? =
          some ((parseUsageBasis cfg.monthlyUsageProjectionBasis).getD
            (i % (parseUsageBasis cfg.monthlyUsageProjectionBasis).length) 0) := by
  refine ⟨_, calculateProjection_ok cfg h3 hub, rfl, by simp, by simp, ?_⟩
  intro i hi
  rw [getElem?_map_range _ hi]
  rfl

/-- Witness for C2 at the concrete variable-mode configuration with
pattern `"10,20"` and 5 months. -/
theorem C2_witness :
    ∃ r : ProjectionResult, calculateProjection witnessCfg = some r ∧ r.error = none ∧
      r.projectedUsage.length = witnessCfg.nMonths ∧
      r.projectedCosts.length = witnessCfg.nMonths ∧
      ∀ i : ℕ, i < witnessCfg.nMonths →
        r.projectedUsage[i]? =
          some ((parseUsageBasis witnessCfg.monthlyUsageProjectionBasis).getD
            (i % (parseUsageBasis witnessCfg.monthlyUsageProjectionBasis).length) 0) :=
  C2_lengths_and_cyclic_usage witnessCfg rfl (by decide) (by decide)

/-- Claim C6: the projection never throws for malformed numeric entries —
they are silently filtered — and it reports the `InvalidInput` error
exactly when the pattern is empty after filtering, in which case it
returns empty sequences and a zero total instead of crashing. -/
theorem C6_invalid_input_handling (cfg : ProjectionConfig)
    (h3 : cfg.tariffQuarters.length = 3) :
    ∃ r : ProjectionResult, calculateProjection cfg = some r ∧
      (r.error.isSome ↔ parseUsageBasis cfg.monthlyUsageProjectionBasis = []) ∧
      (parseUsageBasis cfg.monthlyUsageProjectionBasis = [] →
        r.error = some invalidInputMsg ∧ r.projectedUsage = [] ∧ r.projectedCosts = [] ∧
        r.totalProjectedCost = 0) := by
  by_cases hub : parseUsageBasis cfg.monthlyUsageProjectionBasis = []
  · exact ⟨_, calculateProjection_emptyBasis cfg hub, by simp [hub],
      fun _ => ⟨rfl, rfl, rfl, rfl⟩⟩
  · exact ⟨_, calculateProjection_ok cfg h3 hub, by simp [hub], fun h => absurd h hub⟩

/-- Witness for C6 at the concrete configuration whose usage input
`"x,ab"` contains only unparseable entries. -/
theorem C6_witness :
    ∃ r : ProjectionResult, calculateProjection unparseableCfg = some r ∧
      (r.error.isSome ↔ parseUsageBasis unparseableCfg.monthlyUsageProjectionBasis = []) ∧
      (parseUsageBasis unparseableCfg.monthlyUsageProjectionBasis = [] →
        r.error = some invalidInputMsg ∧ r.projectedUsage = [] ∧ r.projectedCosts = [] ∧
        r.totalProjectedCost = 0) :=
  C6_invalid_input_handling unparseableCfg rfl

/-- Claim C7: on success, `totalCost` is the sum of the unrounded
per-month costs while each `monthlyCost` entry is rounded independently
to 2 decimals, and the discrepancy between `totalCost` and the sum of
the rounded entries is at most `0.005 * monthCount`. -/
theorem C7_total_cost_discrepancy (cfg : ProjectionConfig)
    (h3 : cfg.tariffQuarters.length = 3)
    (hub : parseUsageBasis cfg.monthlyUsageProjectionBasis ≠ []) :
    ∃ r : ProjectionResult, calculateProjection cfg = some r ∧ r.error = none ∧
      r.totalProjectedCost = ((List.range cfg.nMonths).map
        (costAt cfg (parseUsageBasis cfg.monthlyUsageProjectionBasis))).sum ∧
      r.projectedCosts = (List.range cfg.nMonths).map
        (fun i => round2 (costAt cfg (parseUsageBasis cfg.monthlyUsageProjectionBasis) i)) ∧
      |r.totalProjectedCost - r.projectedCosts.sum| ≤ (5 / 1000 : ℚ) * cfg.nMonths := by
  refine ⟨_, calculateProjection_ok cfg h3 hub, rfl, rfl, rfl, ?_⟩
  have hb := abs_sum_round2_sub
    (costAt cfg (parseUsageBasis cfg.monthlyUsageProjectionBasis)) (List.range cfg.nMonths)
  rw [List.length_range] at hb
  exact le_of_le_of_eq hb (by ring)

/-- Claim C1: for every configuration with a non-empty parseable usage
pattern and every month index `i < monthCount`, the `i`-th `monthlyCost`
entry is `round2(unitCost + standingCost)` with
`unitCost = peakUsage * rate.peakUnitRate/100 + offPeakUsage * rate.offPeakUnitRate/100`
and `standingCost = daysInMonth * rate.standingCharge/100`, where the
rate is `fixedRates` in fixed mode and the band selected for month `i`
otherwise; and on the specification's fixed-mode example the result is
`monthlyCost = [30.50, 29.00]`, `totalCost = 59.50`. -/
theorem C1_month_cost_formula :
    (∀ (cfg : ProjectionConfig) (i : ℕ),
      cfg.tariffQuarters.length = 3 →
      parseUsageBasis cfg.monthlyUsageProjectionBasis ≠ [] →
      i < cfg.nMonths →
      ∃ r : ProjectionResult, calculateProjection cfg = some r ∧ r.error = none ∧
        r.projectedCosts[i]? = some (round2
          (usageAt (parseUsageBasis cfg.monthlyUsageProjectionBasis) i *
              (cfg.peakPercentage / 100) * (appliedRates cfg i).peakUnitRate / 100 +
            usageAt (parseUsageBasis cfg.monthlyUsageProjectionBasis) i *
              ((100 - cfg.peakPercentage) / 100) * (appliedRates cfg i).offPeakUnitRate / 100 +
            (jsDaysInMonth i : ℚ) * (appliedRates cfg i).standingCharge / 100)))
    ∧ calculateProjection exampleFixedCfg = some
        { error := none, projectedUsage := [100, 100],
          projectedCosts := [30.50, 29.00], totalProjectedCost := 59.50 } := by
  constructor
  · intro cfg i h3 hub hi
    refine ⟨_, calculateProjection_ok cfg h3 hub, rfl, ?_⟩
    rw [getElem?_map_range _ hi]
    simp only [costAt, monthCostWith, peakUsageOf, offPeakUsageOf]
  · have hp : parseUsageBasis exampleFixedCfg.monthlyUsageProjectionBasis = [100] := by
      simp +decide [parseUsageBasis, splitOnChar, jsNumber, jsTrim, jsWhitespace,
        parseUnsignedDec, digitsVal, exampleFixedCfg]
    have h := calculateProjection_ok exampleFixedCfg rfl (by rw [hp]; simp)
    rw [h, hp]
    have hc0 : costAt exampleFixedCfg [100] 0 = 61 / 2 := by
      norm_num [costAt, usageAt, appliedRates, monthCostWith, peakUsageOf, offPeakUsageOf,
        exampleFixedCfg, jsDaysInMonth, gregorianDaysInMonth, isLeapYear]
    have hc1 : costAt exampleFixedCfg [100] 1 = 29 := by
      norm_num [costAt, usageAt, appliedRates, monthCostWith, peakUsageOf, offPeakUsageOf,
        exampleFixedCfg, jsDaysInMonth, gregorianDaysInMonth, isLeapYear]
    have hr0 : round2 (61 / 2 : ℚ) = 61 / 2 := by
      rw [round2_eq_of (61 / 2 : ℚ) 3050 (by norm_num) (by norm_num)]
      norm_num
    have hr1 : round2 (29 : ℚ) = 29 := by
      rw [round2_eq_of (29 : ℚ) 2900 (by norm_num) (by norm_num)]
      norm_num
    simp [List.range_succ, show exampleFixedCfg.nMonths = 2 from rfl, hc0, hc1, hr0, hr1,
      usageAt]
    norm_num

/-- Witness for the general part of C1 at the example configuration and
month 0. -/
theorem C1_month_cost_formula_witness :
    ∃ r : ProjectionResult, calculateProjection exampleFixedCfg = some r ∧ r.error = none ∧
      r.projectedCosts[0]? = some (round2
        (usageAt (parseUsageBasis exampleFixedCfg.monthlyUsageProjectionBasis) 0 *
            (exampleFixedCfg.peakPercentage / 100) *
            (appliedRates exampleFixedCfg 0).peakUnitRate / 100 +
          usageAt (parseUsageBasis exampleFixedCfg.monthlyUsageProjectionBasis) 0 *
            ((100 - exampleFixedCfg.peakPercentage) / 100) *
            (appliedRates exampleFixedCfg 0).offPeakUnitRate / 100 +
          (jsDaysInMonth 0 : ℚ) * (appliedRates exampleFixedCfg 0).standingCharge / 100)) :=
  C1_month_cost_formula.1 exampleFixedCfg 0 rfl (by decide) (by decide)

/-- The quarter-band formula exactly as the specification words it:
`futureMonth = ((currentMonth - 1 + 3*i) mod 12) + 1`, winter when
`futureMonth ≥ 10` or `futureMonth ≤ 3` with multiplier 1.10 (0.95 in
summer), and every rate field `round2((field + 0.5*i) * multiplier)`.
Stated with the mathematical `mod` (`Int.emod`); compared against the
code's truncating `%` in the claim-C3 theorem. -/
def specQuarterBand (currentBand : Rates) (currentMonth : ℤ) (i : ℕ) : TariffBand :=
  let futureMonth := (currentMonth - 1 + 3 * i) % 12 + 1
  let multiplier : ℚ := if 10 ≤ futureMonth ∨ futureMonth ≤ 3 then 11 / 10 else 19 / 20
  { name := if i = 1 then "Next Quarter" else "Following Quarter"
    peakUnitRate := round2 ((currentBand.peakUnitRate + 1 / 2 * i) * multiplier)
    standingCharge := round2 ((currentBand.standingCharge + 1 / 2 * i) * multiplier)
    offPeakUnitRate := round2 ((currentBand.offPeakUnitRate + 1 / 2 * i) * multiplier) }

/-- Claim C3: for every current band and every current month in 1..12,
the band deriver returns exactly three bands: the current band unchanged
labelled "Current Month", then the quarter bands for offsets 1 and 2
computed by the specification's seasonal formula (labelled "Next
Quarter" and "Following Quarter"). -/
theorem C3_derive_bands (b : Rates) (m : ℤ) (h1 : 1 ≤ m) (h2 : m ≤ 12) :
    calculateTariffBands b m =
      [ { name := "Current Month", peakUnitRate := b.peakUnitRate,
          standingCharge := b.standingCharge, offPeakUnitRate := b.offPeakUnitRate },
        specQuarterBand b m 1, specQuarterBand b m 2 ] := by
  interval_cases m <;> rfl

/-- Witness for C3 at the specification's example band
`{peakUnitRate: 27, standingCharge: 55, offPeakUnitRate: 15}` and July. -/
theorem C3_derive_bands_witness :
    calculateTariffBands
        { peakUnitRate := 27, offPeakUnitRate := 15, standingCharge := 55 } 7 =
      [ { name := "Current Month", peakUnitRate := 27, standingCharge := 55,
          offPeakUnitRate := 15 },
        specQuarterBand { peakUnitRate := 27, offPeakUnitRate := 15, standingCharge := 55 } 7 1,
        specQuarterBand { peakUnitRate := 27, offPeakUnitRate := 15, standingCharge := 55 } 7 2 ] :=
  C3_derive_bands { peakUnitRate := 27, offPeakUnitRate := 15, standingCharge := 55 } 7
    (by decide) (by decide)

/-- Claim C10: an empty or whitespace-only usage-pattern entry converts
to the number 0 and survives the not-NaN filter (the empty input string
splits to one empty entry); consequently a blank input yields a
`monthCount`-length projection of all-zero usage whose cost is the
standing charge only, not an `InvalidInput` error; and any entry that
converts to a number (only NaN entries are dropped) contributes its
value to the filtered usage basis. -/
theorem C10_blank_input_is_zero_usage :
    (∀ cs : List Char, cs.all jsWhitespace = true → jsNumber cs = some 0)
    ∧ splitOnChar ',' [] = [[]]
    ∧ (∀ cfg : ProjectionConfig, cfg.tariffQuarters.length = 3 →
        cfg.monthlyUsageProjectionBasis.all jsWhitespace = true →
        ∃ r : ProjectionResult, calculateProjection cfg = some r ∧ r.error = none ∧
          r.projectedUsage = List.replicate cfg.nMonths 0 ∧
          ∀ i : ℕ, i < cfg.nMonths → r.projectedCosts[i]? =
            some (round2 ((jsDaysInMonth i : ℚ) * (appliedRates cfg i).standingCharge / 100)))
    ∧ (∀ (basis e : List Char) (q : ℚ), e ∈ splitOnChar ',' basis → jsNumber e = some q →
        q ∈ parseUsageBasis basis) := by
  have hws : ∀ cs : List Char, cs.all jsWhitespace = true → jsNumber cs = some 0 := by
    intro cs h
    have h1 : cs.dropWhile jsWhitespace = [] := by
      rw [List.dropWhile_eq_nil_iff]
      intro x hx
      exact List.all_eq_true.mp h x hx
    simp [jsNumber, jsTrim, h1]
  refine ⟨hws, rfl, ?_, ?_⟩
  · intro cfg h3 hbasis
    have hnc : ∀ c ∈ cfg.monthlyUsageProjectionBasis, ¬ c = ',' := by
      intro c hc hcomma
      have hw := List.all_eq_true.mp hbasis c hc
      rw [hcomma] at hw
      exact absurd hw (by decide)
    have hparse : parseUsageBasis cfg.monthlyUsageProjectionBasis = [0] := by
      unfold parseUsageBasis
      rw [splitOnChar_eq_single ',' cfg.monthlyUsageProjectionBasis hnc]
      simp [hws cfg.monthlyUsageProjectionBasis hbasis]
    refine ⟨_, calculateProjection_ok cfg h3 (by rw [hparse]; simp), rfl, ?_, ?_⟩
    · rw [hparse, List.eq_replicate_iff]
      refine ⟨by simp, ?_⟩
      intro b hb
      rw [List.mem_map] at hb
      obtain ⟨i, hi, rfl⟩ := hb
      simp [usageAt]
    · intro i hi
      rw [hparse, getElem?_map_range _ hi]
      congr 2
      simp [costAt, usageAt, monthCostWith, peakUsageOf, offPeakUsageOf]
  · intro basis e q he hq
    unfold parseUsageBasis
    rw [List.mem_filterMap]
    exact ⟨some q, by rw [List.mem_map]; exact ⟨e, he, hq⟩, rfl⟩

/-- Witness for C10: the one-space entry converts to 0, and the empty
input string produces a 12-month all-zero projection. -/
theorem C10_blank_input_witness :
    jsNumber [' '] = some 0 ∧
    (∃ r : ProjectionResult, calculateProjection blankCfg = some r ∧ r.error = none ∧
      r.projectedUsage = List.replicate blankCfg.nMonths 0 ∧
      ∀ i : ℕ, i < blankCfg.nMonths → r.projectedCosts[i]? =
        some (round2 ((jsDaysInMonth i : ℚ) * (appliedRates blankCfg i).standingCharge / 100))) :=
  ⟨C10_blank_input_is_zero_usage.1 [' '] (by decide),
   C10_blank_input_is_zero_usage.2.2.1 blankCfg rfl (by decide)⟩

/-- Witness for C7 at the concrete variable-mode configuration with
pattern `"10,20"` and 5 months. -/
theorem C7_witness :
    ∃ r : ProjectionResult, calculateProjection witnessCfg = some r ∧ r.error = none ∧
      r.totalProjectedCost = ((List.range witnessCfg.nMonths).map
        (costAt witnessCfg (parseUsageBasis witnessCfg.monthlyUsageProjectionBasis))).sum ∧
      r.projectedCosts = (List.range witnessCfg.nMonths).map
        (fun i => round2 (costAt witnessCfg
          (parseUsageBasis witnessCfg.monthlyUsageProjectionBasis) i)) ∧
      |r.totalProjectedCost - r.projectedCosts.sum| ≤ (5 / 1000 : ℚ) * witnessCfg.nMonths :=
  C7_total_cost_discrepancy witnessCfg rfl (by decide)
